import Mathlib

/-!
Shallow embedding of ScreenConfigWidget (screenconfiglayout.h): the geometry
model, monitor edge derivation, Screen (wall) operations, the snapping
algorithm, the interaction-mode stepper, and the border-classification
accumulator of ScreenDisplayWidget.

Modelling conventions: size_t values are Nat with every operation reduced
modulo 2 ^ 64; Qt int coordinates are Int; qreal quantities (the fixed display
scale and the 0.05 thresholds) are rationals, with Qt's qRound and
double-to-int truncation made explicit.  Border pointers are identified by the
owning monitor's unique name together with the border index, which is exactly
the information that determines a `const Border*` into the monitor list.
-/

namespace ScreenConfig

/-- Modulus of size_t arithmetic: the literal value of 2 ^ 64. -/
def W64 : Nat := 18446744073709551616

/-- size_t addition. -/
def uadd (a b : Nat) : Nat := (a + b) % W64

/-- size_t subtraction (wrapping). -/
def usub (a b : Nat) : Nat := (a % W64 + (W64 - b % W64)) % W64

/-- size_t multiplication. -/
def umul (a b : Nat) : Nat := (a * b) % W64

/-- size_t unary minus (wrapping). -/
def uneg (a : Nat) : Nat := (W64 - a % W64) % W64

/-- Conversion of a C int value to size_t (two's complement reduction). -/
def intToU64 (d : Int) : Nat := (d % (W64 : Int)).toNat

/-- Mathematical statement of size_t wrapping: an integer expression reduced
into the range 0 .. 2^64 - 1. -/
def specWrap (z : Int) : Nat := (z % (W64 : Int)).toNat

/-- Truncation of a rational toward zero, as C++ double-to-int conversion. -/
def truncQ (q : ℚ) : Int := q.num.tdiv (q.den : Int)

/-- Qt's qRound: round half away from zero. -/
def qRound (q : ℚ) : Int := if 0 ≤ q then truncQ (q + 1/2) else truncQ (q - 1/2)

/-- Dimensions<size_t> (the Geometry typedef): width, height and offsets in
wall pixels at scale 1. -/
structure Geometry where
  width : Nat := 0
  height : Nat := 0
  xOffset : Nat := 0
  yOffset : Nat := 0
deriving DecidableEq, Repr

/-- Dimensions::left. -/
def Geometry.left (g : Geometry) : Nat := g.xOffset

/-- Dimensions::top. -/
def Geometry.top (g : Geometry) : Nat := g.yOffset

/-- Dimensions::right (size_t addition). -/
def Geometry.right (g : Geometry) : Nat := uadd g.xOffset g.width

/-- Dimensions::bottom (size_t addition). -/
def Geometry.bottom (g : Geometry) : Nat := uadd g.yOffset g.height

/-- QRect in Qt's internal representation: x1, y1, x2, y2 with
x2 = x1 + width - 1 and y2 = y1 + height - 1. -/
structure QRect where
  x1 : Int
  y1 : Int
  x2 : Int
  y2 : Int
deriving DecidableEq, Repr

/-- QRect built from a top-left point and a size. -/
def QRect.fromPointSize (x y w h : Int) : QRect := ⟨x, y, x + w - 1, y + h - 1⟩

/-- QRect::width. -/
def QRect.width (r : QRect) : Int := r.x2 - r.x1 + 1

/-- QRect::height. -/
def QRect.height (r : QRect) : Int := r.y2 - r.y1 + 1

/-- QRect::setWidth (keeps the top-left corner). -/
def QRect.setWidth (r : QRect) (w : Int) : QRect := { r with x2 := r.x1 + w - 1 }

/-- QRect::setHeight (keeps the top-left corner). -/
def QRect.setHeight (r : QRect) (h : Int) : QRect := { r with y2 := r.y1 + h - 1 }

/-- QRect::moveTo a new top-left point, preserving the size. -/
def QRect.moveTo (r : QRect) (tx ty : Int) : QRect :=
  ⟨tx, ty, tx + (r.x2 - r.x1), ty + (r.y2 - r.y1)⟩

/-- QRect::moveLeft, preserving the size. -/
def QRect.moveLeft (r : QRect) (x : Int) : QRect :=
  ⟨x, r.y1, x + (r.x2 - r.x1), r.y2⟩

/-- QRect::moveRight, preserving the size. -/
def QRect.moveRight (r : QRect) (x : Int) : QRect :=
  ⟨x - (r.x2 - r.x1), r.y1, x, r.y2⟩

/-- QRect::moveTop, preserving the size. -/
def QRect.moveTop (r : QRect) (y : Int) : QRect :=
  ⟨r.x1, y, r.x2, y + (r.y2 - r.y1)⟩

/-- QRect::moveBottom, preserving the size. -/
def QRect.moveBottom (r : QRect) (y : Int) : QRect :=
  ⟨r.x1, y - (r.y2 - r.y1), r.x2, y⟩

/-- QRect::adjusted. -/
def QRect.adjusted (r : QRect) (d1 d2 d3 d4 : Int) : QRect :=
  ⟨r.x1 + d1, r.y1 + d2, r.x2 + d3, r.y2 + d4⟩

/-- QRect::contains for a point (non-proper containment). -/
def QRect.contains (r : QRect) (px py : Int) : Bool :=
  decide (r.x1 ≤ px ∧ px ≤ r.x2 ∧ r.y1 ≤ py ∧ py ≤ r.y2)

/-- QRect::isNull. -/
def QRect.isNull (r : QRect) : Bool :=
  decide (r.x2 = r.x1 - 1 ∧ r.y2 = r.y1 - 1)

/-- QRect::intersects; every rectangle built in this development has
nonnegative extents, so Qt's negative-width normalisation is omitted. -/
def QRect.intersects (r s : QRect) : Bool :=
  !r.isNull && !s.isNull &&
    decide (max r.x1 s.x1 ≤ min r.x2 s.x2 ∧ max r.y1 s.y1 ≤ min r.y2 s.y2)

/-- QRect::intersected, used only after an intersects test succeeded. -/
def QRect.intersected (r s : QRect) : QRect :=
  ⟨max r.x1 s.x1, max r.y1 s.y1, min r.x2 s.x2, min r.y2 s.y2⟩

/-- Dimensions::qRect: QRect(QPoint(left, top) * scale, QSize(width, height)
* scale); QPoint and QSize multiplication by a qreal rounds each component
with qRound. -/
def Geometry.qRect (g : Geometry) (scale : ℚ) : QRect :=
  QRect.fromPointSize
    (qRound ((g.left : ℚ) * scale)) (qRound ((g.top : ℚ) * scale))
    (qRound ((g.width : ℚ) * scale)) (qRound ((g.height : ℚ) * scale))

/-- The QColor values the widget uses. -/
inductive QColor where
  | lightGray
  | darkGray
  | darkRed
  | darkBlue
  | darkGreen
  | darkMagenta
  | white
deriving DecidableEq, Repr

/-- Border: geometry (scale 1) plus the current draw color, defaulting to
light gray. -/
structure Border where
  geometry : Geometry := {}
  drawColor : QColor := QColor.lightGray
deriving DecidableEq, Repr

/-- Border::qRect: the scaled geometry rectangle with each dimension clamped
to at least 2 px. -/
def Border.qRect (b : Border) (scale : ℚ) : QRect :=
  let r := b.geometry.qRect scale
  let r := if r.width < 2 then r.setWidth 2 else r
  if r.height < 2 then r.setHeight 2 else r

/-- Monitor: name, four borders, and the size_t parameters the edge geometry
is derived from. -/
structure Monitor where
  mName : String
  bottom : Border := {}
  right : Border := {}
  top : Border := {}
  left : Border := {}
  mWidth : Nat
  mHeight : Nat
  mXOffset : Nat
  mYOffset : Nat
  mVerticalLetterboxBarWidth : Nat
  mHorizontalLetterboxBarHeight : Nat
deriving DecidableEq, Repr

/-- Monitor::BORDER_WIDTH. -/
def BORDER_WIDTH : Nat := 16

/-- Monitor::updateGeometry: re-derive the four border geometries from the
monitor parameters, in size_t arithmetic. -/
def Monitor.updateGeometry (m : Monitor) : Monitor :=
  { m with
    left := { m.left with geometry :=
      { width := BORDER_WIDTH
        height := usub (usub m.mHeight (umul 2 BORDER_WIDTH)) (umul 2 m.mHorizontalLetterboxBarHeight)
        xOffset := uadd (uadd m.mVerticalLetterboxBarWidth m.mXOffset) 0
        yOffset := uadd (uadd m.mHorizontalLetterboxBarHeight m.mYOffset) BORDER_WIDTH } }
    right := { m.right with geometry :=
      { width := BORDER_WIDTH
        height := usub (usub m.mHeight (umul 2 BORDER_WIDTH)) (umul 2 m.mHorizontalLetterboxBarHeight)
        xOffset := usub (uadd (uadd (uneg m.mVerticalLetterboxBarWidth) m.mXOffset) m.mWidth) BORDER_WIDTH
        yOffset := uadd (uadd m.mHorizontalLetterboxBarHeight m.mYOffset) BORDER_WIDTH } }
    top := { m.top with geometry :=
      { width := usub m.mWidth (umul 2 m.mVerticalLetterboxBarWidth)
        height := BORDER_WIDTH
        xOffset := uadd (uadd m.mVerticalLetterboxBarWidth m.mXOffset) 0
        yOffset := uadd (uadd m.mHorizontalLetterboxBarHeight m.mYOffset) 0 } }
    bottom := { m.bottom with geometry :=
      { width := usub m.mWidth (umul 2 m.mVerticalLetterboxBarWidth)
        height := BORDER_WIDTH
        xOffset := uadd (uadd m.mVerticalLetterboxBarWidth m.mXOffset) 0
        yOffset := usub (uadd (uadd (uneg m.mHorizontalLetterboxBarHeight) m.mYOffset) m.mHeight) BORDER_WIDTH } } }

/-- The Monitor constructor: store the parameters, then updateGeometry. -/
def Monitor.create (name : String) (width height xOffset yOffset letterboxOffsetX letterboxOffsetY : Nat) : Monitor :=
  Monitor.updateGeometry
    { mName := name
      mWidth := width, mHeight := height
      mXOffset := xOffset, mYOffset := yOffset
      mVerticalLetterboxBarWidth := letterboxOffsetX
      mHorizontalLetterboxBarHeight := letterboxOffsetY }

/-- Monitor::operator[]: 0 bottom, 1 right, 2 top, 3 left; indices are Fin 4
since every caller loops over 0..3 (the out-of-range throw is unreachable). -/
def Monitor.borderAt (m : Monitor) : Fin 4 → Border
  | ⟨0, _⟩ => m.bottom
  | ⟨1, _⟩ => m.right
  | ⟨2, _⟩ => m.top
  | ⟨3, _⟩ => m.left

/-- Writing through Monitor::operator[]: replace the draw color of the border
with the given index. -/
def Monitor.withBorderColor (m : Monitor) : Fin 4 → QColor → Monitor
  | ⟨0, _⟩, c => { m with bottom := { m.bottom with drawColor := c } }
  | ⟨1, _⟩, c => { m with right := { m.right with drawColor := c } }
  | ⟨2, _⟩, c => { m with top := { m.top with drawColor := c } }
  | ⟨3, _⟩, c => { m with left := { m.left with drawColor := c } }

/-- Monitor::boundingRectangle: QRect(top.qRect(scale).topLeft(),
bottom.qRect(scale).bottomRight()). -/
def Monitor.boundingRectangle (m : Monitor) (scale : ℚ) : QRect :=
  ⟨(m.top.qRect scale).x1, (m.top.qRect scale).y1,
   (m.bottom.qRect scale).x2, (m.bottom.qRect scale).y2⟩

/-- Monitor::setXOffset: store the offset and re-derive the edges. -/
def Monitor.setXOffset (m : Monitor) (xOff : Nat) : Monitor :=
  Monitor.updateGeometry { m with mXOffset := xOff }

/-- Monitor::setYOffset: store the offset and re-derive the edges. -/
def Monitor.setYOffset (m : Monitor) (yOff : Nat) : Monitor :=
  Monitor.updateGeometry { m with mYOffset := yOff }

/-- Monitor::move by a QPoint delta: each int component is added to the
size_t offset under the usual arithmetic conversion. -/
def Monitor.move (m : Monitor) (dx dy : Int) : Monitor :=
  let m1 := m.setXOffset (uadd m.mXOffset (intToU64 dx))
  m1.setYOffset (uadd m1.mYOffset (intToU64 dy))

/-- Monitor::setPosition: move by the delta from the current (scale 1)
bounding-rectangle top-left to the target point. -/
def Monitor.setPosition (m : Monitor) (tx ty : Int) : Monitor :=
  m.move (tx - (m.boundingRectangle 1).x1) (ty - (m.boundingRectangle 1).y1)

/-- Screen (the wall): the monitor list, the fixed display scale and the
current selection.  The raw current-selection pointer is represented by the
selected monitor's unique name. -/
structure Screen where
  mMonitorList : List Monitor := []
  mScale : ℚ := 1 / 10
  mCurrentMonitorSelection : Option String := none
deriving DecidableEq, Repr

/-- The default-constructed Screen. -/
def Screen.mkDefault : Screen := {}

/-- Screen::monitorExists. -/
def Screen.monitorExists (s : Screen) (name : String) : Bool :=
  s.mMonitorList.any fun m => decide (m.mName = name)

/-- Screen::getMonitor by name (a null result is none). -/
def Screen.getMonitorByName (s : Screen) (name : String) : Option Monitor :=
  s.mMonitorList.find? fun m => decide (m.mName = name)

/-- Screen::getMonitor by click position: the first monitor whose scaled
bounding rectangle contains the point. -/
def Screen.getMonitorAt (s : Screen) (px py : Int) : Option Monitor :=
  s.mMonitorList.find? fun m => (m.boundingRectangle s.mScale).contains px py

/-- Screen::deleteMonitor: remove every monitor with that name and clear the
current selection unconditionally. -/
def Screen.deleteMonitor (s : Screen) (name : String) : Screen :=
  { s with
    mMonitorList := s.mMonitorList.filter fun m => decide (¬ m.mName = name)
    mCurrentMonitorSelection := none }

/-- Screen::addMonitor: fail on a duplicate name, otherwise clear the
selection and append the newly constructed monitor.  The int parameters are
converted to size_t for the Monitor constructor. -/
def Screen.addMonitor (s : Screen) (name : String)
    (xRes yRes xOff yOff horLetterBox verLetterBox : Int) : Bool × Screen :=
  if s.monitorExists name then
    (false, s)
  else
    (true,
      { s with
        mCurrentMonitorSelection := none
        mMonitorList := s.mMonitorList ++
          [Monitor.create name (intToU64 xRes) (intToU64 yRes) (intToU64 xOff)
            (intToU64 yOff) (intToU64 horLetterBox) (intToU64 verLetterBox)] })

/-- Screen::toggleSingleMonitorSelection: clicking the selected monitor's
name clears the selection and reports false; any other name becomes the new
selection (null when the name does not resolve) and reports true. -/
def Screen.toggleSingleMonitorSelection (s : Screen) (selection : String) : Bool × Screen :=
  match s.mCurrentMonitorSelection with
  | some cur =>
    if cur = selection then
      (false, { s with mCurrentMonitorSelection := none })
    else
      (true, { s with mCurrentMonitorSelection := (s.getMonitorByName selection).map (·.mName) })
  | none =>
    (true, { s with mCurrentMonitorSelection := (s.getMonitorByName selection).map (·.mName) })

/-- Screen::deselectCurrent. -/
def Screen.deselectCurrent (s : Screen) : Screen :=
  { s with mCurrentMonitorSelection := none }

/-- Screen::selectBorder: set the draw color of the given border index on
every monitor carrying the given name. -/
def Screen.selectBorder (s : Screen) (monitor : String) (border : Fin 4) (color : QColor) : Screen :=
  { s with
    mMonitorList := s.mMonitorList.map fun m =>
      if m.mName = monitor then m.withBorderColor border color else m }

/-- Screen::getBorder: the first monitor whose scaled bounding rectangle
contains the click, then the first of its four borders (order bottom, right,
top, left) whose scaled rectangle contains the click; the result carries the
monitor name, the border index and the border value at click time. -/
def Screen.getBorder (s : Screen) (px py : Int) : Option (String × Fin 4 × Border) :=
  s.mMonitorList.findSome? fun m =>
    if (m.boundingRectangle s.mScale).contains px py then
      (List.finRange 4).findSome? fun i =>
        if ((m.borderAt i).qRect s.mScale).contains px py then
          some (m.mName, i, m.borderAt i)
        else none
    else none

/-- Screen::snap, first phase result: the moved rectangle after main-border
pinning and the per-neighbor collision pass, before it is committed.  The
literal 0.05 of the source is the exact rational 1/20; double-to-int
conversions at moveRight/moveBottom/adjusted are explicit truncations, and
QPoint division by the scale rounds with qRound. -/
def Screen.snapRect (s : Screen) (snapping : Monitor) (tx ty : Int) (masterBounding : QRect) : QRect :=
  let snappingRect := snapping.boundingRectangle 1
  let snappingRectMoved := snappingRect.moveTo (qRound ((tx : ℚ) / s.mScale)) (qRound ((ty : ℚ) / s.mScale))
  let heightTreshold : ℚ := (1 / 20) * (masterBounding.height : ℚ)
  let widthTreshold : ℚ := (1 / 20) * (masterBounding.width : ℚ)
  let snappingRectMoved :=
    if (snappingRectMoved.x1 : ℚ) < widthTreshold then snappingRectMoved.moveLeft 0
    else snappingRectMoved
  let snappingRectMoved :=
    if (snappingRectMoved.y1 : ℚ) < heightTreshold then snappingRectMoved.moveTop 0
    else snappingRectMoved
  let snappingRectMoved :=
    if (masterBounding.x2 : ℚ) / s.mScale - (snappingRectMoved.x2 : ℚ) < widthTreshold then
      snappingRectMoved.moveRight (truncQ ((masterBounding.x2 : ℚ) / s.mScale))
    else snappingRectMoved
  let snappingRectMoved :=
    if (masterBounding.y2 : ℚ) / s.mScale - (snappingRectMoved.y2 : ℚ) < heightTreshold then
      snappingRectMoved.moveBottom (truncQ ((masterBounding.y2 : ℚ) / s.mScale))
    else snappingRectMoved
  s.mMonitorList.foldl
    (fun snappingRectMoved other =>
      if other.mName = snapping.mName then snappingRectMoved
      else
        let otherRect := other.boundingRectangle 1
        let otherTestRect := otherRect.adjusted (truncQ (-widthTreshold / 2))
          (truncQ (-heightTreshold / 2)) (truncQ (widthTreshold / 2)) (truncQ (heightTreshold / 2))
        if otherTestRect.intersects snappingRectMoved then
          let intersection := otherTestRect.intersected snappingRectMoved
          if intersection.height > intersection.width then
            if snappingRectMoved.x2 > otherRect.x2 then
              snappingRectMoved.moveLeft (otherRect.x2 + 1)
            else if snappingRectMoved.x2 < otherRect.x2 then
              snappingRectMoved.moveRight (otherRect.x1 - 0)
            else snappingRectMoved
          else
            if snappingRectMoved.y1 < otherRect.y1 then
              snappingRectMoved.moveBottom (otherRect.y1 - 0)
            else if snappingRectMoved.y1 > otherRect.y1 then
              snappingRectMoved.moveTop (otherRect.y2 + 1)
            else snappingRectMoved
        else snappingRectMoved)
    snappingRectMoved

/-- Screen::snap: run the snapping passes and commit the final top-left with
Monitor::setPosition. -/
def Screen.snap (s : Screen) (snapping : Monitor) (tx ty : Int) (masterBounding : QRect) : Monitor :=
  let r := s.snapRect snapping tx ty masterBounding
  snapping.setPosition r.x1 r.y1

/-- InteractionMode, with its two non-enterable sentinels. -/
inductive InteractionMode where
  | first_INVALID
  | configureMonitors
  | selectBottomBorder
  | selectRightBorder
  | selectTopBorder
  | selectLeftBorder
  | last_INVALID
deriving DecidableEq, Repr

/-- The integer value of an InteractionMode enumerator. -/
def InteractionMode.toInt : InteractionMode → Int
  | .first_INVALID => 0
  | .configureMonitors => 1
  | .selectBottomBorder => 2
  | .selectRightBorder => 3
  | .selectTopBorder => 4
  | .selectLeftBorder => 5
  | .last_INVALID => 6

/-- static_cast of an integer back to InteractionMode (none outside 0..6). -/
def interactionModeOfInt (n : Int) : Option InteractionMode :=
  if n = 0 then some .first_INVALID
  else if n = 1 then some .configureMonitors
  else if n = 2 then some .selectBottomBorder
  else if n = 3 then some .selectRightBorder
  else if n = 4 then some .selectTopBorder
  else if n = 5 then some .selectLeftBorder
  else if n = 6 then some .last_INVALID
  else none

/-- The raw increment performed first by ScreenConfigLayout::onNextModeButton:
mCurrentMode = static_cast<InteractionMode>(static_cast<int>(mCurrentMode) + 1). -/
def nextModeRaw (m : InteractionMode) : Option InteractionMode :=
  interactionModeOfInt (m.toInt + 1)

/-- The raw decrement performed first by ScreenConfigLayout::onPrevModeButton. -/
def prevModeRaw (m : InteractionMode) : Option InteractionMode :=
  interactionModeOfInt (m.toInt - 1)

/-- ScreenConfigLayout::onNextModeButton: increment the mode, then assert the
result is not Last_INVALID; a failed assertion is none. -/
def onNextModeButton (m : InteractionMode) : Option InteractionMode :=
  match nextModeRaw m with
  | none => none
  | some m2 => if m2 = .last_INVALID then none else some m2

/-- ScreenConfigLayout::onPrevModeButton: decrement the mode, then assert the
result is not First_INVALID; a failed assertion is none. -/
def onPrevModeButton (m : InteractionMode) : Option InteractionMode :=
  match prevModeRaw m with
  | none => none
  | some m2 => if m2 = .first_INVALID then none else some m2

/-- The enabled state configureForMode gives the Next button:
(int) mCurrentMode != ((int) Last_INVALID) - 1. -/
def nextModeEnabled (m : InteractionMode) : Bool :=
  decide (m.toInt ≠ InteractionMode.last_INVALID.toInt - 1)

/-- The enabled state configureForMode gives the Prev button:
(int) mCurrentMode != ((int) First_INVALID) + 1. -/
def prevModeEnabled (m : InteractionMode) : Bool :=
  decide (m.toInt ≠ InteractionMode.first_INVALID.toInt + 1)

/-- The shell-level advance: the slot only runs when configureForMode left
the Next button enabled, so a click at the boundary cannot occur and the mode
is unchanged there. -/
def guardedNext (m : InteractionMode) : Option InteractionMode :=
  if nextModeEnabled m then onNextModeButton m else some m

/-- The shell-level retreat, symmetric to guardedNext. -/
def guardedPrev (m : InteractionMode) : Option InteractionMode :=
  if prevModeEnabled m then onPrevModeButton m else some m

/-- A stored `const Border*`: the owning monitor's unique name together with
the border index determines the pointer into the monitor list. -/
abbrev BorderRef := String × Fin 4

/-- Dereference a stored border pointer in the current screen state. -/
def derefBorder (s : Screen) (r : BorderRef) : Option Border :=
  (s.getMonitorByName r.1).map fun m => m.borderAt r.2

/-- ScreenDisplayWidget: the screen, the interaction mode, and the
accumulator array mBorders of stored border pointers. -/
structure ScreenDisplayWidget where
  mScreen : Screen := {}
  mInteractionMode : InteractionMode := .configureMonitors
  mBorders : Fin 4 → List BorderRef := fun _ => []

/-- The default-constructed ScreenDisplayWidget. -/
def ScreenDisplayWidget.mkDefault : ScreenDisplayWidget := {}

/-- ScreenDisplayWidget::setInteractionMode (repaint omitted). -/
def ScreenDisplayWidget.setInteractionMode (w : ScreenDisplayWidget) (dm : InteractionMode) : ScreenDisplayWidget :=
  { w with mInteractionMode := dm }

/-- ScreenDisplayWidget::addMonitor delegates to the screen. -/
def ScreenDisplayWidget.addMonitor (w : ScreenDisplayWidget) (name : String)
    (xRes yRes xOff yOff horLetterBox verLetterBox : Int) : Bool × ScreenDisplayWidget :=
  let (added, s) := w.mScreen.addMonitor name xRes yRes xOff yOff horLetterBox verLetterBox
  (added, { w with mScreen := s })

/-- ScreenDisplayWidget::deleteMonitor delegates to the screen. -/
def ScreenDisplayWidget.deleteMonitor (w : ScreenDisplayWidget) (name : String) : ScreenDisplayWidget :=
  { w with mScreen := w.mScreen.deleteMonitor name }

/-- The selection color the border-selection branch of handleClick picks per
mode; the switch default asserts, so sentinel modes yield none. -/
def selectionColorFor (m : InteractionMode) : Option QColor :=
  match m with
  | .selectBottomBorder => some .darkRed
  | .selectRightBorder => some .darkBlue
  | .selectTopBorder => some .darkGreen
  | .selectLeftBorder => some .darkMagenta
  | _ => none

/-- ScreenDisplayWidget::handleClick.  In ConfigureMonitors mode the click
toggles monitor selection; in a border-selection mode it resolves the clicked
border and either assigns it (set the mode's color, append the pointer to
mBorders at the clicked border's index) or unassigns it (reset the color,
removeAll the pointer from mBorders at that index).  none models the assert
in the color switch. -/
def ScreenDisplayWidget.handleClick (w : ScreenDisplayWidget) (px py : Int) : Option ScreenDisplayWidget :=
  match w.mInteractionMode with
  | .configureMonitors =>
    match w.mScreen.getMonitorAt px py with
    | none => some { w with mScreen := w.mScreen.deselectCurrent }
    | some selected =>
      some { w with mScreen := (w.mScreen.toggleSingleMonitorSelection selected.mName).2 }
  | mode =>
    match w.mScreen.getBorder px py with
    | none => some w
    | some (selMonitor, selBorderIndex, selBorder) =>
      if selMonitor = "" then some w
      else
        match selectionColorFor mode with
        | none => none
        | some selectionColor =>
          if selBorder.drawColor ≠ selectionColor then
            some { w with
              mScreen := w.mScreen.selectBorder selMonitor selBorderIndex selectionColor
              mBorders := fun i =>
                if i = selBorderIndex then w.mBorders i ++ [(selMonitor, selBorderIndex)]
                else w.mBorders i }
          else
            some { w with
              mScreen := w.mScreen.selectBorder selMonitor selBorderIndex QColor.lightGray
              mBorders := fun i =>
                if i = selBorderIndex then
                  (w.mBorders i).filter fun r => decide (¬ r = (selMonitor, selBorderIndex))
                else w.mBorders i }

/-- ScreenDisplayWidget::getResultingBorderConfiguration.  The loop body
takes a detached copy of result.at(i) into bVec, appends the dereferenced
stored pointers to that copy, and never writes it back, so the returned
value is the initial vector of four empty lists. -/
def ScreenDisplayWidget.getResultingBorderConfiguration (w : ScreenDisplayWidget) : List (List Border) :=
  (List.finRange 4).foldl
    (fun result i =>
      let _bVec := (w.mBorders i).foldl
        (fun v r => v ++ (derefBorder w.mScreen r).toList) (result.getD i.val [])
      result)
    (List.replicate 4 [])

/-- A widget holding one 320x320 monitor M at the origin, placed in
SelectBottomBorder mode. -/
def wM : ScreenDisplayWidget :=
  ((ScreenDisplayWidget.mkDefault.addMonitor "M" 320 320 0 0 0 0).2).setInteractionMode
    .selectBottomBorder

/-- The state after one click at (20, 0) on wM: the click lands on M's top
border (index 2) in SelectBottomBorder mode. -/
def wClick1 : ScreenDisplayWidget := (wM.handleClick 20 0).getD wM

/-- The state after switching to SelectRightBorder mode and clicking the same
border again. -/
def wClick2 : ScreenDisplayWidget :=
  ((wClick1.setInteractionMode .selectRightBorder).handleClick 20 0).getD wClick1

/-- The concatenation of the four accumulator lists. -/
def bordersConcat (w : ScreenDisplayWidget) : List BorderRef :=
  w.mBorders 0 ++ w.mBorders 1 ++ w.mBorders 2 ++ w.mBorders 3

/-- The accumulator invariant of the specification: every stored border
reference occurs in at most one class list, and at most once there - that is,
the concatenation of the four lists has no duplicate. -/
def accumulatorOk (w : ScreenDisplayWidget) : Prop := (bordersConcat w).Nodup

/-- A screen holding monitors A and B, nothing selected. -/
def sAB : Screen :=
  ((Screen.mkDefault.addMonitor "A" 100 100 0 0 0 0).2.addMonitor "B" 100 100 200 0 0 0).2

/-- The screen sAB with monitor A selected. -/
def sABselA : Screen := (sAB.toggleSingleMonitorSelection "A").2

/-- Monitor A of the snap scenario: 1920x1080 at the origin. -/
def monA : Monitor := Monitor.create "A" 1920 1080 0 0 0 0

/-- Monitor B of the snap scenario: 960x1080, initially at the origin. -/
def monB : Monitor := Monitor.create "B" 960 1080 0 0 0 0

/-- The snap-scenario wall at display scale 1, holding A and B. -/
def wallScreen : Screen :=
  { mMonitorList := [monA, monB], mScale := 1, mCurrentMonitorSelection := none }

/-- The master bounding rectangle of the snap scenario, 1920x1080. -/
def masterRect : QRect := QRect.fromPointSize 0 0 1920 1080

/-- The monitor committed by dragging B so that its left edge would land at
x = 1905. -/
def snapResult : Monitor := wallScreen.snap monB 1905 0 masterRect

/-- A monitor exercising the wrap cases: height 10 with border thickness 16,
x offset 5. -/
def mC10 : Monitor := Monitor.create "m" 100 10 5 0 0 0

/-- Helper: when a monitor with the given name exists, getMonitor by name
finds a monitor carrying exactly that name. -/
theorem getMonitorByName_name (s : Screen) (name : String)
    (h : s.monitorExists name = true) :
    (s.getMonitorByName name).map (fun m => m.mName) = some name := by
  unfold Screen.monitorExists at h
  unfold Screen.getMonitorByName
  rcases hf : s.mMonitorList.find? (fun m => decide (m.mName = name)) with _ | m
  · exfalso
    rw [List.find?_eq_none] at hf
    rw [List.any_eq_true] at h
    obtain ⟨x, hx, hpx⟩ := h
    exact absurd hpx (by simpa using hf x hx)
  · have hp := List.find?_some hf
    simp only [decide_eq_true_eq] at hp
    rw [hf]
    simp [hp]

/-- Claim C1: the code discards the per-class copies it fills, so
getResultingBorderConfiguration returns four empty lists in every state; in
particular, in the state wClick1 where one border has been assigned (its
reference sits in an accumulator bucket), the returned lists are all empty
rather than non-empty. -/
theorem getResultingBorderConfiguration_always_empty :
    (∀ w : ScreenDisplayWidget, w.getResultingBorderConfiguration = List.replicate 4 []) ∧
    wClick1.mBorders 2 = [("M", (2 : Fin 4))] ∧
    wClick1.getResultingBorderConfiguration = [[], [], [], []] := by
  refine ⟨fun w => rfl, by with_unfolding_all decide, rfl⟩

/-- Claim C2: evaluated at a concrete click, the assignment goes to the
bucket of the clicked border's own index, not the bucket of the mode's
class, and re-selecting under another mode duplicates the reference instead
of moving it.  The click at (20, 0) hits monitor M's top border (index 2)
while the mode is SelectBottomBorder; the Bottom bucket stays empty, bucket 2
receives the reference, and the follow-up click under SelectRightBorder
appends the same reference to bucket 2 again, leaving the Right bucket
empty. -/
theorem handleClick_accumulates_by_border_index_not_mode :
    (wM.mScreen.getBorder 20 0).map (fun t => (t.1, t.2.1)) = some ("M", (2 : Fin 4)) ∧
    wM.mInteractionMode = InteractionMode.selectBottomBorder ∧
    wClick1.mBorders 0 = [] ∧
    wClick1.mBorders 2 = [("M", (2 : Fin 4))] ∧
    wClick2.mBorders 1 = [] ∧
    wClick2.mBorders 2 = [("M", (2 : Fin 4)), ("M", (2 : Fin 4))] := by
  with_unfolding_all decide

/-- Claim C3: the accumulator invariant (each border reference in at most one
bucket, at most once) is not preserved by every click: the state wClick1
satisfies it, and a single handleClick in SelectRightBorder mode yields
wClick2, which violates it. -/
theorem click_breaks_accumulator_invariant :
    accumulatorOk wClick1 ∧
    (wClick1.setInteractionMode .selectRightBorder).handleClick 20 0 = some wClick2 ∧
    ¬ accumulatorOk wClick2 := by
  refine ⟨?_, ?_, ?_⟩
  · unfold accumulatorOk
    with_unfolding_all decide
  · with_unfolding_all rfl
  · unfold accumulatorOk
    with_unfolding_all decide

/-- Claim C4: addMonitor with an existing name returns false and leaves the
whole screen state unchanged; with a fresh name it returns true, grows the
collection by exactly one and clears the current selection. -/
theorem addMonitor_spec (s : Screen) (name : String) (xRes yRes xOff yOff horLB verLB : Int) :
    (s.monitorExists name = true →
      s.addMonitor name xRes yRes xOff yOff horLB verLB = (false, s)) ∧
    (s.monitorExists name = false →
      (s.addMonitor name xRes yRes xOff yOff horLB verLB).1 = true ∧
      (s.addMonitor name xRes yRes xOff yOff horLB verLB).2.mMonitorList.length
          = s.mMonitorList.length + 1 ∧
      (s.addMonitor name xRes yRes xOff yOff horLB verLB).2.mCurrentMonitorSelection = none) := by
  constructor
  · intro h
    simp [Screen.addMonitor, h]
  · intro h
    simp [Screen.addMonitor, h]

/-- Witness for addMonitor_spec at the two-monitor screen sAB: adding the
existing name A fails without mutation, adding the fresh name C succeeds,
grows the list to three and clears the selection. -/
theorem addMonitor_spec_witness :
    (sAB.addMonitor "A" 100 100 0 0 0 0 = (false, sAB)) ∧
    ((sAB.addMonitor "C" 100 100 0 0 0 0).1 = true ∧
      (sAB.addMonitor "C" 100 100 0 0 0 0).2.mMonitorList.length = sAB.mMonitorList.length + 1 ∧
      (sAB.addMonitor "C" 100 100 0 0 0 0).2.mCurrentMonitorSelection = none) :=
  ⟨(addMonitor_spec sAB "A" 100 100 0 0 0 0).1 (by with_unfolding_all decide),
   (addMonitor_spec sAB "C" 100 100 0 0 0 0).2 (by with_unfolding_all decide)⟩

/-- Claim C5 counterexample: with A selected, deleting the non-selected
monitor B clears the selection instead of leaving it untouched. -/
theorem deleteMonitor_nonselected_clears_selection :
    sABselA.mCurrentMonitorSelection = some "A" ∧
    sABselA.monitorExists "B" = true ∧
    (sABselA.deleteMonitor "B").mCurrentMonitorSelection = none ∧
    (sABselA.deleteMonitor "B").mCurrentMonitorSelection ≠ sABselA.mCurrentMonitorSelection := by
  with_unfolding_all decide

/-- Claim C5 as amended: deleteMonitor clears the current selection
unconditionally, whether or not the deleted monitor was the selected one, and
removes every monitor carrying the given name. -/
theorem deleteMonitor_clears_selection_unconditionally (s : Screen) (name : String) :
    (s.deleteMonitor name).mCurrentMonitorSelection = none ∧
    ((s.deleteMonitor name).mMonitorList.all fun m => decide (¬ m.mName = name)) = true := by
  constructor
  · rfl
  · rw [List.all_eq_true]
    intro m hm
    simp only [Screen.deleteMonitor, List.mem_filter, decide_eq_true_eq] at hm
    simpa using hm.2

/-- Claim C6 counterexample: with monitor A selected, toggling the existing
name B twice returns (true, false) but ends with no selection, so the prior
selection A is not restored; and toggling a name that resolves to no monitor
returns true (not false) and clears the selection (not a no-op). -/
theorem toggleSelection_counterexample :
    sABselA.mCurrentMonitorSelection = some "A" ∧
    sABselA.monitorExists "B" = true ∧
    (sABselA.toggleSingleMonitorSelection "B").1 = true ∧
    ((sABselA.toggleSingleMonitorSelection "B").2.toggleSingleMonitorSelection "B").1 = false ∧
    ((sABselA.toggleSingleMonitorSelection "B").2.toggleSingleMonitorSelection "B").2.mCurrentMonitorSelection
        = none ∧
    ((sABselA.toggleSingleMonitorSelection "B").2.toggleSingleMonitorSelection "B").2.mCurrentMonitorSelection
        ≠ sABselA.mCurrentMonitorSelection ∧
    sABselA.monitorExists "Z" = false ∧
    (sABselA.toggleSingleMonitorSelection "Z").1 = true ∧
    (sABselA.toggleSingleMonitorSelection "Z").2.mCurrentMonitorSelection = none := by
  with_unfolding_all decide

/-- Claim C6 as amended: toggling the selected name clears the selection and
returns false; toggling any other name sets the selection to the resolved
monitor (none when the name does not resolve) and returns true even in the
unresolved case; the double toggle with an existing name returns (true,
false) and restores the prior selection exactly when that prior selection was
empty. -/
theorem toggleSingleMonitorSelection_spec (s : Screen) (name : String) :
    (s.mCurrentMonitorSelection = some name →
      s.toggleSingleMonitorSelection name = (false, { s with mCurrentMonitorSelection := none })) ∧
    (s.mCurrentMonitorSelection ≠ some name →
      s.toggleSingleMonitorSelection name =
        (true, { s with
          mCurrentMonitorSelection := (s.getMonitorByName name).map (fun m => m.mName) })) ∧
    (s.mCurrentMonitorSelection = none → s.monitorExists name = true →
      (s.toggleSingleMonitorSelection name).1 = true ∧
      ((s.toggleSingleMonitorSelection name).2.toggleSingleMonitorSelection name).1 = false ∧
      ((s.toggleSingleMonitorSelection name).2.toggleSingleMonitorSelection name).2.mCurrentMonitorSelection
          = s.mCurrentMonitorSelection) := by
  refine ⟨?_, ?_, ?_⟩
  · intro h
    simp [Screen.toggleSingleMonitorSelection, h]
  · intro h
    cases hc : s.mCurrentMonitorSelection with
    | none => simp [Screen.toggleSingleMonitorSelection, hc]
    | some cur =>
      have hne : ¬ cur = name := fun e => h (by rw [hc, e])
      simp [Screen.toggleSingleMonitorSelection, hc, hne]
  · intro h0 hex
    have hmap := getMonitorByName_name s name hex
    refine ⟨?_, ?_, ?_⟩
    · simp [Screen.toggleSingleMonitorSelection, h0]
    · simp [Screen.toggleSingleMonitorSelection, h0, hmap]
    · simp [Screen.toggleSingleMonitorSelection, h0, hmap]

/-- Witness for toggleSingleMonitorSelection_spec: the clearing branch at
sABselA with the selected name A, the setting branch at sABselA with the
other name B, and the double toggle with name B starting from the
selection-free screen sAB. -/
theorem toggleSingleMonitorSelection_spec_witness :
    (sABselA.toggleSingleMonitorSelection "A"
        = (false, { sABselA with mCurrentMonitorSelection := none })) ∧
    (sABselA.toggleSingleMonitorSelection "B"
        = (true, { sABselA with
            mCurrentMonitorSelection := (sABselA.getMonitorByName "B").map (fun m => m.mName) })) ∧
    ((sAB.toggleSingleMonitorSelection "B").1 = true ∧
      ((sAB.toggleSingleMonitorSelection "B").2.toggleSingleMonitorSelection "B").1 = false ∧
      ((sAB.toggleSingleMonitorSelection "B").2.toggleSingleMonitorSelection "B").2.mCurrentMonitorSelection
          = sAB.mCurrentMonitorSelection) :=
  ⟨(toggleSingleMonitorSelection_spec sABselA "A").1 (by with_unfolding_all decide),
   (toggleSingleMonitorSelection_spec sABselA "B").2.1 (by with_unfolding_all decide),
   (toggleSingleMonitorSelection_spec sAB "B").2.2 (by with_unfolding_all decide)
     (by with_unfolding_all decide)⟩

/-- Claim C7: updateGeometry derives exactly the four edge geometries of the
specification, interpreted in wrapping size_t arithmetic: left and right are
16 px wide with height h - 2*16 - 2*hlb, top and bottom are 16 px tall with
width w - 2*vlb, at the stated offsets; the left and right widths and the top
and bottom heights are the border constant, and recomputation with unchanged
parameters is idempotent. -/
theorem updateGeometry_formulas (m : Monitor) :
    (m.updateGeometry.left.geometry =
      { width := 16
        height := specWrap ((m.mHeight : Int) - 2 * 16 - 2 * (m.mHorizontalLetterboxBarHeight : Int))
        xOffset := specWrap ((m.mVerticalLetterboxBarWidth : Int) + (m.mXOffset : Int))
        yOffset := specWrap ((m.mHorizontalLetterboxBarHeight : Int) + (m.mYOffset : Int) + 16) }) ∧
    (m.updateGeometry.right.geometry =
      { width := 16
        height := specWrap ((m.mHeight : Int) - 2 * 16 - 2 * (m.mHorizontalLetterboxBarHeight : Int))
        xOffset := specWrap ((m.mXOffset : Int) + (m.mWidth : Int) - 16 - (m.mVerticalLetterboxBarWidth : Int))
        yOffset := specWrap ((m.mHorizontalLetterboxBarHeight : Int) + (m.mYOffset : Int) + 16) }) ∧
    (m.updateGeometry.top.geometry =
      { width := specWrap ((m.mWidth : Int) - 2 * (m.mVerticalLetterboxBarWidth : Int))
        height := 16
        xOffset := specWrap ((m.mVerticalLetterboxBarWidth : Int) + (m.mXOffset : Int))
        yOffset := specWrap ((m.mHorizontalLetterboxBarHeight : Int) + (m.mYOffset : Int)) }) ∧
    (m.updateGeometry.bottom.geometry =
      { width := specWrap ((m.mWidth : Int) - 2 * (m.mVerticalLetterboxBarWidth : Int))
        height := 16
        xOffset := specWrap ((m.mVerticalLetterboxBarWidth : Int) + (m.mXOffset : Int))
        yOffset := specWrap ((m.mYOffset : Int) + (m.mHeight : Int) - 16 - (m.mHorizontalLetterboxBarHeight : Int)) }) ∧
    m.updateGeometry.left.geometry.width = BORDER_WIDTH ∧
    m.updateGeometry.right.geometry.width = BORDER_WIDTH ∧
    m.updateGeometry.top.geometry.height = BORDER_WIDTH ∧
    m.updateGeometry.bottom.geometry.height = BORDER_WIDTH ∧
    m.updateGeometry.updateGeometry = m.updateGeometry := by
  set_option maxRecDepth 2000 in
  refine ⟨?_, ?_, ?_, ?_, rfl, rfl, rfl, rfl, rfl⟩
  · simp only [Monitor.updateGeometry, Geometry.mk.injEq, uadd, usub, umul, uneg,
      specWrap, BORDER_WIDTH, W64]
    refine ⟨?_, ?_, ?_, ?_⟩
    · trivial
    · omega
    · omega
    · omega
  · simp only [Monitor.updateGeometry, Geometry.mk.injEq, uadd, usub, umul, uneg,
      specWrap, BORDER_WIDTH, W64]
    refine ⟨?_, ?_, ?_, ?_⟩
    · trivial
    · omega
    · omega
    · omega
  · simp only [Monitor.updateGeometry, Geometry.mk.injEq, uadd, usub, umul, uneg,
      specWrap, BORDER_WIDTH, W64]
    refine ⟨?_, ?_, ?_, ?_⟩
    · omega
    · trivial
    · omega
    · omega
  · simp only [Monitor.updateGeometry, Geometry.mk.injEq, uadd, usub, umul, uneg,
      specWrap, BORDER_WIDTH, W64]
    refine ⟨?_, ?_, ?_, ?_⟩
    · omega
    · trivial
    · omega
    · omega

/-- Claim C8 counterexample: onNextModeButton at SelectLeftBorder is not a
no-op that stays at SelectLeftBorder: the raw increment lands on the
Last_INVALID sentinel and the assertion fails; symmetrically for
onPrevModeButton at ConfigureMonitors. -/
theorem onNextModeButton_boundary_not_noop :
    onNextModeButton InteractionMode.selectLeftBorder ≠ some InteractionMode.selectLeftBorder ∧
    onNextModeButton InteractionMode.selectLeftBorder = none ∧
    nextModeRaw InteractionMode.selectLeftBorder = some InteractionMode.last_INVALID ∧
    onPrevModeButton InteractionMode.configureMonitors ≠ some InteractionMode.configureMonitors ∧
    onPrevModeButton InteractionMode.configureMonitors = none ∧
    prevModeRaw InteractionMode.configureMonitors = some InteractionMode.first_INVALID := by
  decide

/-- Claim C8 as amended: four advances from ConfigureMonitors reach
SelectLeftBorder; a fifth advance is prevented by the shell, which disables
the Next button exactly there, so the guarded stepper is a no-op at the
boundary (and symmetrically for retreat at ConfigureMonitors); under the
guards every reachable state is one of the five real modes, never a
sentinel. -/
theorem mode_stepper_guarded_spec :
    (((onNextModeButton InteractionMode.configureMonitors).bind onNextModeButton).bind
          onNextModeButton).bind onNextModeButton
        = some InteractionMode.selectLeftBorder ∧
    nextModeEnabled InteractionMode.selectLeftBorder = false ∧
    guardedNext InteractionMode.selectLeftBorder = some InteractionMode.selectLeftBorder ∧
    prevModeEnabled InteractionMode.configureMonitors = false ∧
    guardedPrev InteractionMode.configureMonitors = some InteractionMode.configureMonitors ∧
    guardedNext InteractionMode.configureMonitors = some InteractionMode.selectBottomBorder ∧
    guardedNext InteractionMode.selectBottomBorder = some InteractionMode.selectRightBorder ∧
    guardedNext InteractionMode.selectRightBorder = some InteractionMode.selectTopBorder ∧
    guardedNext InteractionMode.selectTopBorder = some InteractionMode.selectLeftBorder ∧
    guardedPrev InteractionMode.selectLeftBorder = some InteractionMode.selectTopBorder ∧
    guardedPrev InteractionMode.selectTopBorder = some InteractionMode.selectRightBorder ∧
    guardedPrev InteractionMode.selectRightBorder = some InteractionMode.selectBottomBorder ∧
    guardedPrev InteractionMode.selectBottomBorder = some InteractionMode.configureMonitors := by
  decide

/-- Claim C9 counterexample: in the stated scenario the committed position of
B is not flush at A's right edge plus one (x = 1920). -/
theorem snap_scenario_not_flush_right_of_A :
    (monA.boundingRectangle 1).x2 + 1 = 1920 ∧
    snapResult.mXOffset ≠ 1920 := by
  with_unfolding_all decide

/-- Claim C9 as amended: dragging B so its left edge would land at 1905
inside the 1920-wide master first triggers the main-border pin (B's right
edge overflows the master), committing B's left edge at 960, flush against
the master's right edge; the subsequent per-monitor collision pass leaves
that position unchanged because B's and A's right edges then coincide, so
the result is neither the raw dragged position nor A.right + 1. -/
theorem snap_scenario_pinned_to_master :
    snapResult.mXOffset = 960 ∧
    (snapResult.boundingRectangle 1).x2 = masterRect.x2 ∧
    snapResult.mXOffset ≠ 1905 := by
  with_unfolding_all decide

/-- Claim C10: the offsets and derived edge dimensions live in size_t, so a
move whose x delta is more negative than the current offset wraps the offset
to a value above 2^63, and updateGeometry on a monitor with
h < 2*16 + 2*hlb wraps the left edge height to a value above 2^63 instead of
clamping to zero or failing. -/
theorem size_t_wrap_spec (m : Monitor) (d : Int) :
    (-2147483648 ≤ d → (m.mXOffset : Int) + d < 0 →
      ((m.move d 0).mXOffset : Int) = (W64 : Int) + (m.mXOffset : Int) + d ∧
        9223372036854775808 < (m.move d 0).mXOffset) ∧
    (m.mHeight < 2 * BORDER_WIDTH + 2 * m.mHorizontalLetterboxBarHeight →
      m.mHorizontalLetterboxBarHeight < 2147483648 →
      (m.updateGeometry.left.geometry.height : Int)
          = (W64 : Int) + (m.mHeight : Int) - 2 * 16 - 2 * (m.mHorizontalLetterboxBarHeight : Int) ∧
        9223372036854775808 < m.updateGeometry.left.geometry.height) := by
  constructor
  · intro hd hneg
    simp only [Monitor.move, Monitor.setXOffset, Monitor.setYOffset, Monitor.updateGeometry,
      uadd, intToU64, W64]
    omega
  · intro hsmall hbound
    simp only [Monitor.updateGeometry, uadd, usub, umul, uneg, BORDER_WIDTH, W64] at *
    omega

/-- Witness for size_t_wrap_spec at the concrete monitor mC10 (x offset 5,
height 10, no letterboxing) and delta x = -10. -/
theorem size_t_wrap_spec_witness :
    (((mC10.move (-10) 0).mXOffset : Int) = (W64 : Int) + (mC10.mXOffset : Int) + (-10) ∧
      9223372036854775808 < (mC10.move (-10) 0).mXOffset) ∧
    ((mC10.updateGeometry.left.geometry.height : Int)
        = (W64 : Int) + (mC10.mHeight : Int) - 2 * 16 - 2 * (mC10.mHorizontalLetterboxBarHeight : Int) ∧
      9223372036854775808 < mC10.updateGeometry.left.geometry.height) :=
  ⟨(size_t_wrap_spec mC10 (-10)).1 (by with_unfolding_all decide) (by with_unfolding_all decide),
   (size_t_wrap_spec mC10 (-10)).2 (by with_unfolding_all decide) (by with_unfolding_all decide)⟩

end ScreenConfig
